import Mathlib

/-!
Verification of the ATX power-control core of One-KVM.

The definitions below are a shallow embedding of `src/atx/types.rs`,
`src/atx/miot.rs` and `src/atx/controller.rs`.  External effects
(subprocess outcomes, GPIO pulses, LED reads) are supplied explicitly as
environment values; stateful components are modelled by explicit state
passing.  The GPIO/USB-relay executor and the LED sensor live in source
files that are not part of the sources here; they are modelled from the
spec's collaborator contracts and marked as such in their doc comments.
-/

/-- Power status (src/atx/types.rs, `PowerStatus`): tri-state. -/
inductive PowerStatus where
  | On
  | Off
  | Unknown
deriving DecidableEq, Repr

/-- Driver type for ATX key operations (src/atx/types.rs, `AtxDriverType`). -/
inductive AtxDriverType where
  | Gpio
  | UsbRelay
  | Miot
  | None
deriving DecidableEq, Repr

/-- Active level for GPIO pins (src/atx/types.rs, `ActiveLevel`). -/
inductive ActiveLevel where
  | High
  | Low
deriving DecidableEq, Repr

/-- Configuration for a single ATX key (src/atx/types.rs, `AtxKeyConfig`). -/
structure AtxKeyConfig where
  driver : AtxDriverType
  device : String
  pin : Nat
  active_level : ActiveLevel
  prop : String
  value : String
  off_prop : String
  off_value : String
deriving DecidableEq, Repr

/-- Default key configuration (src/atx/types.rs, `impl Default for AtxKeyConfig`). -/
def AtxKeyConfig.default : AtxKeyConfig :=
  { driver := AtxDriverType.None
    device := ""
    pin := 0
    active_level := ActiveLevel.High
    prop := ""
    value := ""
    off_prop := ""
    off_value := "" }

/-- Whether this key is configured (src/atx/types.rs, `AtxKeyConfig::is_configured`). -/
def AtxKeyConfig.is_configured (c : AtxKeyConfig) : Bool :=
  match c.driver with
  | AtxDriverType.None => false
  | AtxDriverType.Gpio | AtxDriverType.UsbRelay => !c.device.isEmpty
  | AtxDriverType.Miot => !c.prop.isEmpty

/-- MiIoT smart-plug connection settings (src/atx/types.rs, `MiotConfig`). -/
structure MiotConfig where
  did : String
  command : String
  auth_path : String
deriving DecidableEq, Repr

/-- Default MiIoT settings (src/atx/types.rs, `impl Default for MiotConfig`). -/
def MiotConfig.default : MiotConfig :=
  { did := "", command := "mijiaAPI", auth_path := "" }

/-- Whether the MiIoT connection is configured (src/atx/types.rs, `MiotConfig::is_configured`). -/
def MiotConfig.is_configured (c : MiotConfig) : Bool :=
  !c.did.isEmpty

/-- Driver type for ATX status detection (src/atx/types.rs, `AtxStatusDriverType`). -/
inductive AtxStatusDriverType where
  | None
  | Led
  | Miot
deriving DecidableEq, Repr

/-- Status detection configuration (src/atx/types.rs, `AtxStatusConfig`). -/
structure AtxStatusConfig where
  driver : AtxStatusDriverType
  gpio_chip : String
  gpio_pin : Nat
  inverted : Bool
  prop : String
  on_value : String
  off_value : String
deriving DecidableEq, Repr

/-- Default status configuration (src/atx/types.rs, `impl Default for AtxStatusConfig`). -/
def AtxStatusConfig.default : AtxStatusConfig :=
  { driver := AtxStatusDriverType.None
    gpio_chip := ""
    gpio_pin := 0
    inverted := false
    prop := ""
    on_value := ""
    off_value := "" }

/-- Whether status detection is configured (src/atx/types.rs, `AtxStatusConfig::is_configured`). -/
def AtxStatusConfig.is_configured (c : AtxStatusConfig) : Bool :=
  match c.driver with
  | AtxStatusDriverType.None => false
  | AtxStatusDriverType.Led => !c.gpio_chip.isEmpty
  | AtxStatusDriverType.Miot => !c.prop.isEmpty

/-- Internal LED sensing configuration (src/atx/types.rs, `AtxLedConfig`). -/
structure AtxLedConfig where
  enabled : Bool
  gpio_chip : String
  gpio_pin : Nat
  inverted : Bool
deriving DecidableEq, Repr

/-- ATX state snapshot (src/atx/types.rs, `AtxState`). -/
structure AtxState where
  available : Bool
  power_configured : Bool
  reset_configured : Bool
  power_status : PowerStatus
  status_supported : Bool
deriving DecidableEq, Repr

/-- ATX controller configuration (src/atx/controller.rs, `AtxControllerConfig`). -/
structure AtxControllerConfig where
  enabled : Bool
  power : AtxKeyConfig
  reset : AtxKeyConfig
  status : AtxStatusConfig
  miot : MiotConfig
deriving DecidableEq, Repr

/-- Default controller configuration (src/atx/controller.rs, `impl Default for AtxControllerConfig`). -/
def AtxControllerConfig.default : AtxControllerConfig :=
  { enabled := false
    power := AtxKeyConfig.default
    reset := AtxKeyConfig.default
    status := AtxStatusConfig.default
    miot := MiotConfig.default }

/-- Modelled from the spec: the application error type `crate::error::AppError`
is not among the sources; per the spec, operational failures are surfaced as
errors carrying diagnostic text, so we model the single constructor the ATX
code uses, `AppError::Internal(String)`. -/
inductive AppError where
  | Internal : String → AppError
deriving DecidableEq, Repr

/-! ## Output parsing (src/atx/miot.rs)

String manipulation is modelled on `List Char` so that every definition
reduces in the kernel.  `char_is_whitespace` is Rust's
`char::is_whitespace` (the Unicode White_Space property), `trimChars` is
Rust's `str::trim`, and `splitOnNl` is the newline split underlying Rust's
`str::lines` (a trailing empty segment, which Rust's `lines` drops, never
contains the marker, and a trailing carriage return is removed by the
subsequent trim, so the split is behaviourally identical here). -/

/-- Rust `char::is_whitespace`: the Unicode White_Space property. -/
def char_is_whitespace (c : Char) : Bool :=
  let n := c.toNat
  (9 ≤ n && n ≤ 13) || n == 32 || n == 133 || n == 160 || n == 5760 ||
    (8192 ≤ n && n ≤ 8202) || n == 8232 || n == 8233 || n == 8239 ||
    n == 8287 || n == 12288

/-- Rust `str::trim`: drop leading and trailing whitespace. -/
def trimChars (l : List Char) : List Char :=
  ((l.dropWhile char_is_whitespace).reverse.dropWhile char_is_whitespace).reverse

/-- Split a character list on newline characters. -/
def splitOnNl : List Char → List (List Char)
  | [] => [[]]
  | c :: rest =>
    match splitOnNl rest with
    | [] => [[]]
    | l :: ls => if c == '\n' then [] :: l :: ls else (c :: l) :: ls

/-- Character-list prefix test, used to locate substring occurrences. -/
def isPrefixList : List Char → List Char → Bool
  | [], _ => true
  | _ :: _, [] => false
  | p :: ps, c :: cs => p == c && isPrefixList ps cs

/-- Text after the last occurrence of `pat` (Rust `str::rfind` followed by
slicing past the pattern).  Returns the suffix after the occurrence with the
largest start position, or `none` when `pat` (non-empty in all uses) does not
occur. -/
def afterLastSub (pat : List Char) : List Char → Option (List Char)
  | [] => none
  | c :: rest =>
    match afterLastSub pat rest with
    | some r => some r
    | none =>
      if isPrefixList pat (c :: rest) then some ((c :: rest).drop pat.length)
      else none

/-- The fixed marker token "值为" scanned for in mijiaAPI output
(src/atx/miot.rs, `parse_value_from_output`). -/
def markerChars : List Char := "值为".data

/-- Loop body of `parse_value_from_output` (src/atx/miot.rs): the lines,
already reversed, are scanned; for each line, trim it, look for the last
occurrence of the marker, trim the trailing text, and return it when
non-empty. -/
def parse_value_lines : List (List Char) → Option (List Char)
  | [] => none
  | line :: rest =>
    let t := trimChars line
    match afterLastSub markerChars t with
    | some cs =>
      let value_part := trimChars cs
      if value_part.isEmpty then parse_value_lines rest else some value_part
    | none => parse_value_lines rest

/-- Extract the value part from mijiaAPI output, scanning lines in reverse
(src/atx/miot.rs, `parse_value_from_output`). -/
def parse_value_from_output (output : String) : Option String :=
  (parse_value_lines ((splitOnNl output.data).reverse)).map (fun cs => String.mk cs)

/-- ASCII-lowercase a character (Rust `u8::to_ascii_lowercase`, lifted to
chars; multi-byte characters are untouched exactly as non-ASCII bytes are). -/
def to_ascii_lower (c : Char) : Char :=
  if 'A' ≤ c ∧ c ≤ 'Z' then Char.ofNat (c.toNat + 32) else c

/-- Rust `str::eq_ignore_ascii_case`. -/
def eq_ignore_ascii_case (a b : String) : Bool :=
  a.data.map to_ascii_lower == b.data.map to_ascii_lower

/-- Parse power status from mijiaAPI output (src/atx/miot.rs,
`parse_power_status`). -/
def parse_power_status (output on_value : String) : PowerStatus :=
  match parse_value_from_output output with
  | some parsed =>
    if eq_ignore_ascii_case parsed on_value then PowerStatus.On else PowerStatus.Off
  | none => PowerStatus.Unknown

example : parse_power_status "LKRQ电脑开机卡 (2094828328) 的 on 值为 True\n" "True" = PowerStatus.On := by decide
example : parse_power_status "LKRQ电脑开机卡 (2094828328) 的 on 值为 False\n" "True" = PowerStatus.Off := by decide
example : parse_power_status "some unexpected output" "True" = PowerStatus.Unknown := by decide
example : parse_power_status "" "True" = PowerStatus.Unknown := by decide
example : parse_value_from_output "LKRQ电脑开机卡 (2094828328) 的 on 值为 True\n" = some "True" := by decide

/-! ## MiIoT backend (src/atx/miot.rs)

The backend holds its configuration and the `initialized` flag (an
`AtomicBool` in the source).  External subprocess calls are modelled by
passing their outcome in explicitly: a `get` call yields
`Except AppError String` (the captured stdout on success, an error on
spawn failure / timeout / non-zero exit), and a `set` call yields
`Except AppError Unit`.  A `set` request issued by the backend is recorded
as a `SetCmd` so that theorems can speak about what was sent. -/

/-- A set request issued to the external mijiaAPI tool
(src/atx/miot.rs, `run_set` argument vector). -/
structure SetCmd where
  did : String
  prop : String
  value : String
deriving DecidableEq, Repr

/-- MiIoT backend state (src/atx/miot.rs, `MiotBackend`). -/
structure MiotBackend where
  config : MiotConfig
  initialized : Bool
deriving DecidableEq, Repr

/-- Create the backend (src/atx/miot.rs, `MiotBackend::new`). -/
def MiotBackend.new (config : MiotConfig) : MiotBackend :=
  { config := config, initialized := false }

/-- Whether the backend is initialized (src/atx/miot.rs, `MiotBackend::is_initialized`). -/
def MiotBackend.is_initialized (b : MiotBackend) : Bool :=
  b.initialized

/-- Initialize the backend (src/atx/miot.rs, `MiotBackend::init`): when the
config is unconfigured it returns Ok without becoming ready; otherwise it
marks itself ready and returns Ok.  No device round-trip is performed. -/
def MiotBackend.init (b : MiotBackend) : MiotBackend × Except AppError Unit :=
  if b.config.is_configured then ({ b with initialized := true }, Except.ok ())
  else (b, Except.ok ())

/-- Shutdown the backend (src/atx/miot.rs, `MiotBackend::shutdown`). -/
def MiotBackend.shutdown (b : MiotBackend) : MiotBackend × Except AppError Unit :=
  ({ b with initialized := false }, Except.ok ())

/-- Execute a set command (src/atx/miot.rs, `MiotBackend::set_prop`):
issues the request `set --did <did> --prop_name <prop> --value <value>`;
the subprocess outcome is supplied by the environment. -/
def MiotBackend.set_prop (b : MiotBackend) (outcome : Except AppError Unit)
    (prop value : String) : Except AppError Unit × List SetCmd :=
  (outcome, [{ did := b.config.did, prop := prop, value := value }])

/-- Get power status (src/atx/miot.rs, `MiotBackend::get_power_status`):
short-circuits to Unknown when not initialized; otherwise propagates a
failed get as an error and parses a successful get's output. -/
def MiotBackend.get_power_status (b : MiotBackend)
    (getOutcome : Except AppError String) (prop on_value : String) :
    Except AppError PowerStatus :=
  if b.is_initialized = false then Except.ok PowerStatus.Unknown
  else
    match getOutcome with
    | Except.error e => Except.error e
    | Except.ok output =>
      let _ := prop
      Except.ok (parse_power_status output on_value)

/-! ## Collaborators modelled from the spec -/

/-- Modelled from the spec: the GPIO/USB-relay pulse executor
(`src/atx/executor.rs`, `AtxKeyExecutor`, is not among the sources).  Per
the spec it exposes initialize, timed-pulse, shutdown and readiness-check
operations; we track its key configuration and readiness bit, and the
outcomes of its fallible operations are supplied by the environment. -/
structure AtxKeyExecutor where
  config : AtxKeyConfig
  initialized : Bool
deriving DecidableEq, Repr

/-- Modelled from the spec: executor construction (unready until initialized). -/
def AtxKeyExecutor.new (config : AtxKeyConfig) : AtxKeyExecutor :=
  { config := config, initialized := false }

/-- Modelled from the spec: executor readiness check. -/
def AtxKeyExecutor.is_initialized (e : AtxKeyExecutor) : Bool :=
  e.initialized

/-- Modelled from the spec: executor initialization; on success the executor
becomes ready, on failure an error is returned. -/
def AtxKeyExecutor.initOp (e : AtxKeyExecutor) (ok : Bool) :
    AtxKeyExecutor × Except AppError Unit :=
  if ok then ({ e with initialized := true }, Except.ok ())
  else (e, Except.error (AppError.Internal "executor init failed"))

/-- Modelled from the spec: executor shutdown, a fallible teardown. -/
def AtxKeyExecutor.shutdownOp (e : AtxKeyExecutor) (ok : Bool) :
    AtxKeyExecutor × Except AppError Unit :=
  ({ e with initialized := false },
    if ok then Except.ok () else Except.error (AppError.Internal "executor shutdown failed"))

/-- Modelled from the spec: a timed pulse on the executor; the hardware
outcome is supplied by the environment, the duration is in milliseconds. -/
def AtxKeyExecutor.pulse (e : AtxKeyExecutor) (outcome : Except AppError Unit)
    (duration_ms : Nat) : Except AppError Unit :=
  let _ := e
  let _ := duration_ms
  outcome

/-- Modelled from the spec: the LED-based status sensor (`src/atx/led.rs`,
`LedSensor`, is not among the sources).  Per the spec it exposes initialize,
single-shot read, shutdown and readiness-check operations. -/
structure LedSensor where
  config : AtxLedConfig
  initialized : Bool
deriving DecidableEq, Repr

/-- Modelled from the spec: sensor construction (unready until initialized). -/
def LedSensor.new (config : AtxLedConfig) : LedSensor :=
  { config := config, initialized := false }

/-- Modelled from the spec: sensor readiness check. -/
def LedSensor.is_initialized (s : LedSensor) : Bool :=
  s.initialized

/-- Modelled from the spec: sensor initialization. -/
def LedSensor.initOp (s : LedSensor) (ok : Bool) : LedSensor × Except AppError Unit :=
  if ok then ({ s with initialized := true }, Except.ok ())
  else (s, Except.error (AppError.Internal "led sensor init failed"))

/-- Modelled from the spec: sensor shutdown, a fallible teardown. -/
def LedSensor.shutdownOp (s : LedSensor) (ok : Bool) : LedSensor × Except AppError Unit :=
  ({ s with initialized := false },
    if ok then Except.ok () else Except.error (AppError.Internal "led sensor shutdown failed"))

/-- Modelled from the spec: a single-shot power-state read; the outcome is
supplied by the environment. -/
def LedSensor.readOp (s : LedSensor) (outcome : Except AppError PowerStatus) :
    Except AppError PowerStatus :=
  let _ := s
  outcome

/-- Modelled from the spec: the pulse durations of `src/atx/executor.rs`
(`timing::SHORT_PRESS`, `timing::LONG_PRESS`, `timing::RESET_PRESS`) are
fixed hardware-tuning constants in the hundreds-of-milliseconds to
low-seconds range; the exact values are not given, so representative
milliseconds are used (no claim depends on them). -/
def timing_SHORT_PRESS : Nat := 500

/-- Modelled from the spec: the longer force-off pulse duration. -/
def timing_LONG_PRESS : Nat := 5000

/-- Modelled from the spec: the reset pulse duration. -/
def timing_RESET_PRESS : Nat := 500

/-! ## Controller (src/atx/controller.rs)

`AtxInner` is the state bundle behind the controller's single RwLock.  The
lock itself is not modelled: each operation acts on the state it captured
at entry, exactly as the source's shared-lock read does.  Environments
carry the outcomes of the external effects each operation may perform. -/

/-- Internal controller state (src/atx/controller.rs, `AtxInner`). -/
structure AtxInner where
  config : AtxControllerConfig
  power_executor : Option AtxKeyExecutor
  reset_executor : Option AtxKeyExecutor
  led_sensor : Option LedSensor
  miot_backend : Option MiotBackend
deriving DecidableEq, Repr

/-- Controller construction (src/atx/controller.rs, `AtxController::new`):
all four backend handles start absent. -/
def AtxInner.new (config : AtxControllerConfig) : AtxInner :=
  { config := config
    power_executor := none
    reset_executor := none
    led_sensor := none
    miot_backend := none }

/-- Whether any component uses the MiIoT backend (src/atx/controller.rs,
`needs_miot_backend`). -/
def needs_miot_backend (config : AtxControllerConfig) : Bool :=
  decide (config.power.driver = AtxDriverType.Miot) ||
    decide (config.reset.driver = AtxDriverType.Miot) ||
    decide (config.status.driver = AtxStatusDriverType.Miot)

/-- Outcomes of the fallible collaborator initializations performed by one
`init()` call (the MiIoT backend's own init is infallible in the source and
needs no environment). -/
structure InitEnv where
  power_ok : Bool
  reset_ok : Bool
  led_ok : Bool
deriving DecidableEq, Repr

/-- Outcomes of the fallible collaborator teardowns performed by one
shutdown pass (all of them are discarded by the source). -/
structure TeardownEnv where
  power_ok : Bool
  reset_ok : Bool
  led_ok : Bool
deriving DecidableEq, Repr

/-- Decidable equality for `Except`, needed so environments with subprocess
outcomes can be compared in witnesses. -/
instance {ε α : Type} [DecidableEq ε] [DecidableEq α] : DecidableEq (Except ε α) :=
  fun x y =>
    match x, y with
    | Except.ok a, Except.ok b =>
      if h : a = b then isTrue (congrArg Except.ok h)
      else isFalse (fun hh => h (Except.ok.inj hh))
    | Except.error a, Except.error b =>
      if h : a = b then isTrue (congrArg Except.error h)
      else isFalse (fun hh => h (Except.error.inj hh))
    | Except.ok _, Except.error _ => isFalse (fun hh => Except.noConfusion hh)
    | Except.error _, Except.ok _ => isFalse (fun hh => Except.noConfusion hh)

/-- Outcomes of the external reads performed by one status resolution:
the mijiaAPI `get` subprocess and the LED sensor read. -/
structure StatusEnv where
  miot_get : Except AppError String
  led_read : Except AppError PowerStatus
deriving DecidableEq, Repr

/-- Outcomes of the external effects of one action call: a status
resolution, a mijiaAPI `set` subprocess, and an executor pulse. -/
structure ActionEnv where
  status : StatusEnv
  set_outcome : Except AppError Unit
  pulse_outcome : Except AppError Unit
deriving DecidableEq, Repr

namespace AtxController

/-- MiIoT step of `init()` (src/atx/controller.rs lines 100-113): when some
component uses MiIoT and the connection is configured, construct and
initialize the backend and store the handle only on success. -/
def initMiotStep (s : AtxInner) : AtxInner :=
  if needs_miot_backend s.config then
    if s.config.miot.is_configured then
      let r := (MiotBackend.new s.config.miot).init
      match r.2 with
      | Except.ok _ => { s with miot_backend := some r.1 }
      | Except.error _ => s
    else s
  else s

/-- Power-executor step of `init()` (src/atx/controller.rs lines 115-127):
GPIO/USB-relay only; the handle is stored only on successful init. -/
def initPowerStep (s : AtxInner) (ok : Bool) : AtxInner :=
  if s.config.power.driver ≠ AtxDriverType.Miot ∧ s.config.power.is_configured then
    let r := (AtxKeyExecutor.new s.config.power).initOp ok
    match r.2 with
    | Except.ok _ => { s with power_executor := some r.1 }
    | Except.error _ => s
  else s

/-- Reset-executor step of `init()` (src/atx/controller.rs lines 129-141). -/
def initResetStep (s : AtxInner) (ok : Bool) : AtxInner :=
  if s.config.reset.driver ≠ AtxDriverType.Miot ∧ s.config.reset.is_configured then
    let r := (AtxKeyExecutor.new s.config.reset).initOp ok
    match r.2 with
    | Except.ok _ => { s with reset_executor := some r.1 }
    | Except.error _ => s
  else s

/-- LED-sensor step of `init()` (src/atx/controller.rs lines 143-161). -/
def initLedStep (s : AtxInner) (ok : Bool) : AtxInner :=
  if s.config.status.driver = AtxStatusDriverType.Led ∧ s.config.status.is_configured then
    let led_config : AtxLedConfig :=
      { enabled := true
        gpio_chip := s.config.status.gpio_chip
        gpio_pin := s.config.status.gpio_pin
        inverted := s.config.status.inverted }
    let r := (LedSensor.new led_config).initOp ok
    match r.2 with
    | Except.ok _ => { s with led_sensor := some r.1 }
    | Except.error _ => s
  else s

/-- Initialize the controller (src/atx/controller.rs, `AtxController::init`):
no-op success when disabled; otherwise the four best-effort steps run in
order and the call always returns Ok. -/
def init (s : AtxInner) (env : InitEnv) : AtxInner × Except AppError Unit :=
  if s.config.enabled then
    (initLedStep (initResetStep (initPowerStep (initMiotStep s) env.power_ok)
      env.reset_ok) env.led_ok, Except.ok ())
  else (s, Except.ok ())

/-- Internal shutdown helper (src/atx/controller.rs, `shutdown_internal`):
each handle is taken out and its teardown is invoked with the result
discarded (`.ok()` in the source); the call returns Ok. -/
def shutdown_internal (s : AtxInner) (env : TeardownEnv) :
    AtxInner × Except AppError Unit :=
  let s1 :=
    match s.miot_backend with
    | some b => let _ := b.shutdown; { s with miot_backend := none }
    | none => s
  let s2 :=
    match s1.power_executor with
    | some e => let _ := e.shutdownOp env.power_ok; { s1 with power_executor := none }
    | none => s1
  let s3 :=
    match s2.reset_executor with
    | some e => let _ := e.shutdownOp env.reset_ok; { s2 with reset_executor := none }
    | none => s2
  let s4 :=
    match s3.led_sensor with
    | some l => let _ := l.shutdownOp env.led_ok; { s3 with led_sensor := none }
    | none => s3
  (s4, Except.ok ())

/-- Shutdown the controller (src/atx/controller.rs, `AtxController::shutdown`):
propagates `shutdown_internal`'s result (which is always Ok). -/
def shutdown (s : AtxInner) (env : TeardownEnv) : AtxInner × Except AppError Unit :=
  match shutdown_internal s env with
  | (s1, Except.ok _) => (s1, Except.ok ())
  | (s1, Except.error e) => (s1, Except.error e)

/-- Reload with a new configuration (src/atx/controller.rs,
`AtxController::reload`): teardown, replace the config, re-initialize. -/
def reload (s : AtxInner) (new_config : AtxControllerConfig)
    (tenv : TeardownEnv) (ienv : InitEnv) : AtxInner × Except AppError Unit :=
  match shutdown_internal s tenv with
  | (s1, Except.error e) => (s1, Except.error e)
  | (s1, Except.ok _) => init { s1 with config := new_config } ienv

/-- Status resolver (src/atx/controller.rs, `get_power_status_inner`). -/
def get_power_status_inner (s : AtxInner) (env : StatusEnv) : PowerStatus :=
  match s.config.status.driver with
  | AtxStatusDriverType.Miot =>
    match s.miot_backend with
    | some miot =>
      match miot.get_power_status env.miot_get s.config.status.prop
          s.config.status.on_value with
      | Except.ok st => st
      | Except.error _ => PowerStatus.Unknown
    | none => PowerStatus.Unknown
  | AtxStatusDriverType.Led =>
    match s.led_sensor with
    | some sensor =>
      match sensor.readOp env.led_read with
      | Except.ok st => st
      | Except.error _ => PowerStatus.Unknown
    | none => PowerStatus.Unknown
  | AtxStatusDriverType.None => PowerStatus.Unknown

/-- Public power-status query (src/atx/controller.rs, `AtxController::power_status`). -/
def power_status (s : AtxInner) (env : StatusEnv) : Except AppError PowerStatus :=
  Except.ok (get_power_status_inner s env)

/-- State snapshot (src/atx/controller.rs, `AtxController::state`). -/
def state (s : AtxInner) (env : StatusEnv) : AtxState :=
  let ps := get_power_status_inner s env
  let power_configured := s.config.power.is_configured &&
    (decide (s.config.power.driver ≠ AtxDriverType.Miot) || s.miot_backend.isSome)
  let reset_configured := s.config.reset.is_configured &&
    (decide (s.config.reset.driver ≠ AtxDriverType.Miot) || s.miot_backend.isSome)
  let status_supported :=
    match s.config.status.driver with
    | AtxStatusDriverType.Led =>
      (s.led_sensor.map (fun se => se.is_initialized)).getD false
    | AtxStatusDriverType.Miot => s.miot_backend.isSome
    | AtxStatusDriverType.None => false
  { available := s.config.enabled
    power_configured := power_configured
    reset_configured := reset_configured
    power_status := ps
    status_supported := status_supported }

/-- Power-button readiness (src/atx/controller.rs, `AtxController::is_power_ready`). -/
def is_power_ready (s : AtxInner) : Bool :=
  (s.power_executor.map (fun e => e.is_initialized)).getD false

/-- Reset-button readiness (src/atx/controller.rs, `AtxController::is_reset_ready`). -/
def is_reset_ready (s : AtxInner) : Bool :=
  (s.reset_executor.map (fun e => e.is_initialized)).getD false

/-- Short press of the power button (src/atx/controller.rs,
`AtxController::power_short`).  Returns the call result together with the
set commands sent to the smart plug. -/
def power_short (s : AtxInner) (env : ActionEnv) :
    Except AppError Unit × List SetCmd :=
  if s.config.power.driver = AtxDriverType.Miot then
    match s.miot_backend with
    | none => (Except.error (AppError.Internal "MiIoT backend not initialized"), [])
    | some miot =>
      let current_status := get_power_status_inner s env.status
      let pv :=
        match current_status with
        | PowerStatus.On => (s.config.power.off_prop, s.config.power.off_value)
        | PowerStatus.Off | PowerStatus.Unknown =>
          (s.config.power.prop, s.config.power.value)
      miot.set_prop env.set_outcome pv.1 pv.2
  else
    match s.power_executor with
    | none => (Except.error (AppError.Internal "Power button not configured"), [])
    | some ex => (ex.pulse env.pulse_outcome timing_SHORT_PRESS, [])

/-- Long press of the power button (src/atx/controller.rs,
`AtxController::power_long`). -/
def power_long (s : AtxInner) (env : ActionEnv) :
    Except AppError Unit × List SetCmd :=
  if s.config.power.driver = AtxDriverType.Miot then
    match s.miot_backend with
    | none => (Except.error (AppError.Internal "MiIoT backend not initialized"), [])
    | some miot =>
      miot.set_prop env.set_outcome s.config.power.off_prop s.config.power.off_value
  else
    match s.power_executor with
    | none => (Except.error (AppError.Internal "Power button not configured"), [])
    | some ex => (ex.pulse env.pulse_outcome timing_LONG_PRESS, [])

/-- Press of the reset button (src/atx/controller.rs, `AtxController::reset`). -/
def resetBtn (s : AtxInner) (env : ActionEnv) :
    Except AppError Unit × List SetCmd :=
  if s.config.reset.driver = AtxDriverType.Miot then
    match s.miot_backend with
    | none => (Except.error (AppError.Internal "MiIoT backend not initialized"), [])
    | some miot =>
      miot.set_prop env.set_outcome s.config.reset.prop s.config.reset.value
  else
    match s.reset_executor with
    | none => (Except.error (AppError.Internal "Reset button not configured"), [])
    | some ex => (ex.pulse env.pulse_outcome timing_RESET_PRESS, [])

end AtxController

/-- Controller states reachable from construction through any sequence of
`init()`, `reload()` and `shutdown()` calls, under every environment. -/
inductive Reachable : AtxInner → Prop where
  | construct (cfg : AtxControllerConfig) : Reachable (AtxInner.new cfg)
  | step_init {s : AtxInner} (h : Reachable s) (env : InitEnv) :
      Reachable (AtxController.init s env).1
  | step_reload {s : AtxInner} (h : Reachable s) (cfg : AtxControllerConfig)
      (tenv : TeardownEnv) (ienv : InitEnv) :
      Reachable (AtxController.reload s cfg tenv ienv).1
  | step_shutdown {s : AtxInner} (h : Reachable s) (env : TeardownEnv) :
      Reachable (AtxController.shutdown s env).1

/-! ## Parsing lemmas and claims about the parser -/

/-- Per-line value extraction as the spec words it: the text of the line
after the fixed marker, trimmed, when non-empty. -/
def lineValue (l : List Char) : Option (List Char) :=
  match afterLastSub markerChars (trimChars l) with
  | some cs =>
    let v := trimChars cs
    if v.isEmpty then none else some v
  | none => none

/-- The reverse-scan loop returns the first line (in scan order) with a
non-empty extracted value. -/
theorem parse_value_lines_eq_findSome (ls : List (List Char)) :
    parse_value_lines ls = ls.findSome? lineValue := by
  induction ls with
  | nil => rfl
  | cons l rest ih =>
    simp only [parse_value_lines, lineValue, List.findSome?]
    cases h : afterLastSub markerChars (trimChars l) with
    | none => simpa [h] using ih
    | some cs =>
      by_cases he : (trimChars cs).isEmpty
      · simpa [h, he] using ih
      · simp [h, he]

/-- C3: parsing the smart-plug tool output scans lines from the end
backward, takes the first line (from the end) whose trimmed text after the
marker "值为" is non-empty and uses that trimmed trailing text as the
parsed value; the status is On iff the parsed value matches `on_value`
ASCII-case-insensitively, Off iff a value was parsed but does not match,
and Unknown exactly when no line yields a non-empty match (in particular on
empty input). -/
theorem C3_parse_power_status (output on_value : String) :
    (parse_value_from_output output =
      (((splitOnNl output.data).reverse.findSome? lineValue).map
        (fun cs => String.mk cs))) ∧
    (parse_power_status output on_value = PowerStatus.On ↔
      ∃ v, parse_value_from_output output = some v ∧
        eq_ignore_ascii_case v on_value = true) ∧
    (parse_power_status output on_value = PowerStatus.Off ↔
      ∃ v, parse_value_from_output output = some v ∧
        eq_ignore_ascii_case v on_value = false) ∧
    (parse_power_status output on_value = PowerStatus.Unknown ↔
      parse_value_from_output output = none) ∧
    parse_value_from_output "" = none := by
  refine ⟨?_, ?_, ?_, ?_, by decide⟩
  · unfold parse_value_from_output
    rw [parse_value_lines_eq_findSome]
  · unfold parse_power_status
    cases hp : parse_value_from_output output with
    | none => simp
    | some v =>
      by_cases he : eq_ignore_ascii_case v on_value = true
      · simp [he]
      · simp only [Bool.not_eq_true] at he
        simp [he]
  · unfold parse_power_status
    cases hp : parse_value_from_output output with
    | none => simp
    | some v =>
      by_cases he : eq_ignore_ascii_case v on_value = true
      · simp [he]
      · simp only [Bool.not_eq_true] at he
        simp [he]
  · unfold parse_power_status
    cases hp : parse_value_from_output output with
    | none => simp
    | some v =>
      by_cases he : eq_ignore_ascii_case v on_value = true
      · simp [he]
      · simp only [Bool.not_eq_true] at he
        simp [he]

/-- C5: for every key configuration, `is_configured` holds iff the driver is
not None, a Gpio/UsbRelay driver has a non-empty device, and a Miot driver
has a non-empty prop. -/
theorem C5_key_is_configured (c : AtxKeyConfig) :
    c.is_configured = true ↔
      (c.driver ≠ AtxDriverType.None ∧
        ((c.driver = AtxDriverType.Gpio ∨ c.driver = AtxDriverType.UsbRelay) →
          c.device ≠ "") ∧
        (c.driver = AtxDriverType.Miot → c.prop ≠ "")) := by
  rcases c with ⟨d, dev, pin, lvl, prop, val, op, ov⟩
  cases d <;>
    simp [AtxKeyConfig.is_configured, ← String.isEmpty_iff]

/-- C6: the public power-status query always returns Ok with the resolver's
output, and every failure of an external read during status resolution
collapses to Unknown rather than surfacing. -/
theorem C6_power_status_total (s : AtxInner) (env : StatusEnv) :
    (AtxController.power_status s env =
      Except.ok (AtxController.get_power_status_inner s env)) ∧
    (∀ e : AppError, env.miot_get = Except.error e →
      s.config.status.driver = AtxStatusDriverType.Miot →
      AtxController.get_power_status_inner s env = PowerStatus.Unknown) ∧
    (∀ e : AppError, env.led_read = Except.error e →
      s.config.status.driver = AtxStatusDriverType.Led →
      AtxController.get_power_status_inner s env = PowerStatus.Unknown) := by
  refine ⟨rfl, ?_, ?_⟩
  · intro e he hd
    unfold AtxController.get_power_status_inner
    rw [hd]
    cases s.miot_backend with
    | none => rfl
    | some b =>
      simp only [MiotBackend.get_power_status, he]
      by_cases hb : b.is_initialized = false
      · simp [hb]
      · simp [hb]
  · intro e he hd
    unfold AtxController.get_power_status_inner
    rw [hd]
    cases s.led_sensor with
    | none => rfl
    | some sensor => simp [LedSensor.readOp, he]

/-- Characterization of `shutdown_internal`: it clears all four handles and
always returns Ok, regardless of the teardown outcomes. -/
theorem shutdown_internal_spec (s : AtxInner) (env : TeardownEnv) :
    AtxController.shutdown_internal s env =
      ({ s with miot_backend := none, power_executor := none,
                reset_executor := none, led_sensor := none },
        Except.ok ()) := by
  rcases s with ⟨cfg, pe, re, ls, mb⟩
  unfold AtxController.shutdown_internal
  cases mb <;> cases pe <;> cases re <;> cases ls <;> rfl

/-- Characterization of `shutdown`: it clears all four handles and always
returns Ok. -/
theorem shutdown_spec (s : AtxInner) (env : TeardownEnv) :
    AtxController.shutdown s env =
      ({ s with miot_backend := none, power_executor := none,
                reset_executor := none, led_sensor := none },
        Except.ok ()) := by
  unfold AtxController.shutdown
  rw [shutdown_internal_spec]

/-- C7: shutdown succeeds for every state and every teardown outcome;
calling it twice succeeds both times; afterwards all four backend handles
are absent. -/
theorem C7_shutdown_total (s : AtxInner) (e1 e2 : TeardownEnv) :
    (AtxController.shutdown s e1).2 = Except.ok () ∧
    (AtxController.shutdown (AtxController.shutdown s e1).1 e2).2 = Except.ok () ∧
    (AtxController.shutdown s e1).1.miot_backend = none ∧
    (AtxController.shutdown s e1).1.power_executor = none ∧
    (AtxController.shutdown s e1).1.reset_executor = none ∧
    (AtxController.shutdown s e1).1.led_sensor = none := by
  simp [shutdown_spec]

/-- C8: MiIoT backend initialization always returns Ok; a freshly created
backend becomes ready after init iff its config is configured (did
non-empty); shutdown always returns the backend to the unready state with
an Ok result. -/
theorem C8_miot_init (cfg : MiotConfig) :
    ((MiotBackend.new cfg).init).2 = Except.ok () ∧
    (((MiotBackend.new cfg).init).1.is_initialized = true ↔
      cfg.is_configured = true) ∧
    (cfg.is_configured = true ↔ cfg.did ≠ "") ∧
    (∀ b : MiotBackend, (b.init).2 = Except.ok ()) ∧
    (∀ b : MiotBackend,
      (b.shutdown).1.is_initialized = false ∧ (b.shutdown).2 = Except.ok ()) := by
  refine ⟨?_, ?_, ?_, ?_, ?_⟩
  · by_cases h : cfg.is_configured = true <;>
      simp [MiotBackend.new, MiotBackend.init, h]
  · by_cases h : cfg.is_configured = true <;>
      simp [MiotBackend.new, MiotBackend.init, MiotBackend.is_initialized, h]
  · simp [MiotConfig.is_configured, ← String.isEmpty_iff]
  · intro b
    by_cases h : b.config.is_configured = true <;> simp [MiotBackend.init, h]
  · intro b
    exact ⟨rfl, rfl⟩

/-! ## Reachability invariants -/

/-- Every present smart-plug backend handle is initialized. -/
def MiotHandleInit (s : AtxInner) : Prop :=
  ∀ b : MiotBackend, s.miot_backend = some b → b.is_initialized = true

/-- A Miot-driven power key never has a local power executor. -/
def PowerExecAbsent (s : AtxInner) : Prop :=
  s.config.power.driver = AtxDriverType.Miot → s.power_executor = none

theorem initMiotStep_eq (s : AtxInner) :
    AtxController.initMiotStep s = s ∨
      AtxController.initMiotStep s =
        { s with miot_backend := some (MiotBackend.mk s.config.miot true) } := by
  unfold AtxController.initMiotStep
  by_cases h1 : needs_miot_backend s.config = true
  · by_cases h2 : s.config.miot.is_configured = true
    · right
      simp [h1, h2, MiotBackend.init, MiotBackend.new]
    · left
      simp [h1, h2]
  · left
    simp [h1]

theorem initMiotStep_config (s : AtxInner) :
    (AtxController.initMiotStep s).config = s.config := by
  rcases initMiotStep_eq s with h | h <;> rw [h]

theorem initMiotStep_power (s : AtxInner) :
    (AtxController.initMiotStep s).power_executor = s.power_executor := by
  rcases initMiotStep_eq s with h | h <;> rw [h]

theorem initMiotStep_miotInv (s : AtxInner) (h : MiotHandleInit s) :
    MiotHandleInit (AtxController.initMiotStep s) := by
  intro b hb
  rcases initMiotStep_eq s with he | he
  · rw [he] at hb
    exact h b hb
  · rw [he] at hb
    simp only [Option.some.injEq] at hb
    rw [← hb]
    rfl

theorem initPowerStep_config (s : AtxInner) (ok : Bool) :
    (AtxController.initPowerStep s ok).config = s.config := by
  unfold AtxController.initPowerStep AtxKeyExecutor.initOp AtxKeyExecutor.new
  split
  · cases ok <;> rfl
  · rfl

theorem initPowerStep_miot (s : AtxInner) (ok : Bool) :
    (AtxController.initPowerStep s ok).miot_backend = s.miot_backend := by
  unfold AtxController.initPowerStep AtxKeyExecutor.initOp AtxKeyExecutor.new
  split
  · cases ok <;> rfl
  · rfl

theorem initPowerStep_powerInv (s : AtxInner) (ok : Bool)
    (h : s.config.power.driver = AtxDriverType.Miot) :
    (AtxController.initPowerStep s ok).power_executor = s.power_executor := by
  unfold AtxController.initPowerStep
  rw [if_neg]
  intro hc
  exact hc.1 h

theorem initResetStep_config (s : AtxInner) (ok : Bool) :
    (AtxController.initResetStep s ok).config = s.config := by
  unfold AtxController.initResetStep AtxKeyExecutor.initOp AtxKeyExecutor.new
  split
  · cases ok <;> rfl
  · rfl

theorem initResetStep_miot (s : AtxInner) (ok : Bool) :
    (AtxController.initResetStep s ok).miot_backend = s.miot_backend := by
  unfold AtxController.initResetStep AtxKeyExecutor.initOp AtxKeyExecutor.new
  split
  · cases ok <;> rfl
  · rfl

theorem initResetStep_power (s : AtxInner) (ok : Bool) :
    (AtxController.initResetStep s ok).power_executor = s.power_executor := by
  unfold AtxController.initResetStep AtxKeyExecutor.initOp AtxKeyExecutor.new
  split
  · cases ok <;> rfl
  · rfl

theorem initLedStep_config (s : AtxInner) (ok : Bool) :
    (AtxController.initLedStep s ok).config = s.config := by
  unfold AtxController.initLedStep LedSensor.initOp LedSensor.new
  split
  · cases ok <;> rfl
  · rfl

theorem initLedStep_miot (s : AtxInner) (ok : Bool) :
    (AtxController.initLedStep s ok).miot_backend = s.miot_backend := by
  unfold AtxController.initLedStep LedSensor.initOp LedSensor.new
  split
  · cases ok <;> rfl
  · rfl

theorem initLedStep_power (s : AtxInner) (ok : Bool) :
    (AtxController.initLedStep s ok).power_executor = s.power_executor := by
  unfold AtxController.initLedStep LedSensor.initOp LedSensor.new
  split
  · cases ok <;> rfl
  · rfl

theorem init_config (s : AtxInner) (env : InitEnv) :
    ((AtxController.init s env).1).config = s.config := by
  unfold AtxController.init
  split
  · rw [initLedStep_config, initResetStep_config, initPowerStep_config,
      initMiotStep_config]
  · rfl

theorem init_MiotHandleInit (s : AtxInner) (env : InitEnv)
    (h : MiotHandleInit s) : MiotHandleInit ((AtxController.init s env).1) := by
  unfold AtxController.init
  split
  · intro b hb
    rw [initLedStep_miot, initResetStep_miot, initPowerStep_miot] at hb
    exact initMiotStep_miotInv s h b hb
  · exact h

theorem init_PowerExecAbsent (s : AtxInner) (env : InitEnv)
    (h : PowerExecAbsent s) : PowerExecAbsent ((AtxController.init s env).1) := by
  intro hd
  rw [init_config] at hd
  unfold AtxController.init
  split
  · rw [initLedStep_power, initResetStep_power,
      initPowerStep_powerInv _ _ (by rw [initMiotStep_config]; exact hd),
      initMiotStep_power]
    exact h hd
  · exact h hd

theorem reload_eq (s : AtxInner) (cfg : AtxControllerConfig)
    (tenv : TeardownEnv) (ienv : InitEnv) :
    AtxController.reload s cfg tenv ienv =
      AtxController.init
        { config := cfg, power_executor := none, reset_executor := none,
          led_sensor := none, miot_backend := none } ienv := by
  unfold AtxController.reload
  rw [shutdown_internal_spec]

/-- Both invariants hold in every reachable controller state. -/
theorem reachable_invariants {s : AtxInner} (h : Reachable s) :
    MiotHandleInit s ∧ PowerExecAbsent s := by
  induction h with
  | construct cfg =>
    exact ⟨fun b hb => by simp [AtxInner.new] at hb, fun _ => rfl⟩
  | step_init h env ih =>
    exact ⟨init_MiotHandleInit _ env ih.1, init_PowerExecAbsent _ env ih.2⟩
  | step_reload h cfg tenv ienv ih =>
    rw [reload_eq]
    exact ⟨init_MiotHandleInit _ ienv (fun b hb => by simp at hb),
      init_PowerExecAbsent _ ienv (fun _ => rfl)⟩
  | step_shutdown h env ih =>
    rw [shutdown_spec]
    exact ⟨fun b hb => by simp at hb, fun _ => rfl⟩

/-! ## Claims about the controller -/

/-- C9: in every controller state reachable from construction through
init, reload and shutdown, a present smart-plug backend handle is
initialized. -/
theorem C9_reachable_miot_initialized (s : AtxInner) (hr : Reachable s) :
    ∀ b : MiotBackend, s.miot_backend = some b → b.is_initialized = true :=
  (reachable_invariants hr).1

/-- C10: in every reachable controller state whose power driver is Miot,
`is_power_ready()` returns false, because the local power executor is never
constructed for a Miot driver. -/
theorem C10_miot_power_not_ready (s : AtxInner) (hr : Reachable s)
    (hd : s.config.power.driver = AtxDriverType.Miot) :
    AtxController.is_power_ready s = false := by
  have hp := (reachable_invariants hr).2 hd
  simp [AtxController.is_power_ready, hp]

/-- The selected status backend's handle is present and initialized. -/
def StatusHandleReady (s : AtxInner) : Prop :=
  match s.config.status.driver with
  | AtxStatusDriverType.Led =>
    ∃ se : LedSensor, s.led_sensor = some se ∧ se.is_initialized = true
  | AtxStatusDriverType.Miot =>
    ∃ b : MiotBackend, s.miot_backend = some b ∧ b.is_initialized = true
  | AtxStatusDriverType.None => False

/-- C4: in every reachable controller state, the snapshot has
available = config.enabled; power_configured (resp. reset_configured) holds
iff the key is configured and (its driver is not Miot or the smart-plug
handle is present); power_status is the resolver's output; and
status_supported is true only if the selected status backend's handle is
present and initialized, and is false when the status driver is None. -/
theorem C4_state_snapshot (s : AtxInner) (env : StatusEnv) (hr : Reachable s) :
    (AtxController.state s env).available = s.config.enabled ∧
    ((AtxController.state s env).power_configured = true ↔
      (s.config.power.is_configured = true ∧
        (s.config.power.driver ≠ AtxDriverType.Miot ∨
          s.miot_backend.isSome = true))) ∧
    ((AtxController.state s env).reset_configured = true ↔
      (s.config.reset.is_configured = true ∧
        (s.config.reset.driver ≠ AtxDriverType.Miot ∨
          s.miot_backend.isSome = true))) ∧
    (AtxController.state s env).power_status =
      AtxController.get_power_status_inner s env ∧
    ((AtxController.state s env).status_supported = true → StatusHandleReady s) ∧
    (s.config.status.driver = AtxStatusDriverType.None →
      (AtxController.state s env).status_supported = false) := by
  refine ⟨rfl, ?_, ?_, rfl, ?_, ?_⟩
  · simp [AtxController.state, Bool.and_eq_true, Bool.or_eq_true,
      decide_eq_true_eq]
  · simp [AtxController.state, Bool.and_eq_true, Bool.or_eq_true,
      decide_eq_true_eq]
  · intro hsup
    unfold StatusHandleReady
    unfold AtxController.state at hsup
    simp only at hsup
    cases hd : s.config.status.driver with
    | Led =>
      rw [hd] at hsup
      cases hl : s.led_sensor with
      | none => rw [hl] at hsup; simp at hsup
      | some se =>
        rw [hl] at hsup
        simp only [Option.map_some, Option.getD_some] at hsup
        exact ⟨se, rfl, hsup⟩
    | Miot =>
      rw [hd] at hsup
      cases hm : s.miot_backend with
      | none => rw [hm] at hsup; simp at hsup
      | some b =>
        exact ⟨b, rfl, (reachable_invariants hr).1 b hm⟩
    | None =>
      rw [hd] at hsup
      simp at hsup
  · intro hd
    unfold AtxController.state
    simp only [hd]

/-- C1: for a Miot-driven power key, `power_short` with the backend handle
present resolves the current power status and sends the force-off pair
(off_prop, off_value) when it is On and the power-on pair (prop, value)
when it is Off or Unknown; with the handle absent it fails with the
not-configured error and sends nothing. -/
theorem C1_power_short (s : AtxInner) (env : ActionEnv)
    (h : s.config.power.driver = AtxDriverType.Miot) :
    (∀ b : MiotBackend, s.miot_backend = some b →
      ((AtxController.get_power_status_inner s env.status = PowerStatus.On →
        (AtxController.power_short s env).2 =
          [SetCmd.mk b.config.did s.config.power.off_prop
            s.config.power.off_value]) ∧
       ((AtxController.get_power_status_inner s env.status = PowerStatus.Off ∨
         AtxController.get_power_status_inner s env.status =
           PowerStatus.Unknown) →
        (AtxController.power_short s env).2 =
          [SetCmd.mk b.config.did s.config.power.prop s.config.power.value]) ∧
       (AtxController.power_short s env).1 = env.set_outcome)) ∧
    (s.miot_backend = none →
      (AtxController.power_short s env).1 =
        Except.error (AppError.Internal "MiIoT backend not initialized") ∧
      (AtxController.power_short s env).2 = []) := by
  constructor
  · intro b hb
    refine ⟨?_, ?_, ?_⟩
    · intro hOn
      simp [AtxController.power_short, h, hb, hOn, MiotBackend.set_prop]
    · intro hOffU
      rcases hOffU with hst | hst <;>
        simp [AtxController.power_short, h, hb, hst, MiotBackend.set_prop]
    · cases hst : AtxController.get_power_status_inner s env.status <;>
        simp [AtxController.power_short, h, hb, hst, MiotBackend.set_prop]
  · intro hb
    constructor <;> simp [AtxController.power_short, h, hb]

/-- C2: for a Miot-driven power key with the backend handle present,
`power_long` sends the force-off pair (off_prop, off_value) regardless of
the sensed status (the sent pair is the same for every environment). -/
theorem C2_power_long (s : AtxInner) (env : ActionEnv) (b : MiotBackend)
    (h : s.config.power.driver = AtxDriverType.Miot)
    (hb : s.miot_backend = some b) :
    (AtxController.power_long s env).2 =
      [SetCmd.mk b.config.did s.config.power.off_prop s.config.power.off_value] ∧
    (AtxController.power_long s env).1 = env.set_outcome := by
  constructor <;> simp [AtxController.power_long, h, hb, MiotBackend.set_prop]

/-! ## Concrete witnesses -/

/-- A power key driven by the MiIoT smart plug (LKRQ-card style mapping). -/
def miotKeyCfg : AtxKeyConfig :=
  { AtxKeyConfig.default with
    driver := AtxDriverType.Miot
    prop := "on"
    value := "True"
    off_prop := "on"
    off_value := "False" }

/-- Status detection through the smart plug. -/
def miotStatusCfg : AtxStatusConfig :=
  { AtxStatusConfig.default with
    driver := AtxStatusDriverType.Miot
    prop := "on"
    on_value := "True" }

/-- A configured MiIoT connection. -/
def miotConnCfg : MiotConfig :=
  { did := "2094828328", command := "mijiaAPI", auth_path := "" }

/-- An enabled controller configuration that is fully Miot-driven. -/
def miotCtrlCfg : AtxControllerConfig :=
  { enabled := true
    power := miotKeyCfg
    reset := AtxKeyConfig.default
    status := miotStatusCfg
    miot := miotConnCfg }

/-- The state reached by constructing the controller on `miotCtrlCfg` and
running one `init()` (all collaborator inits succeeding). -/
def miotReadyState : AtxInner :=
  (AtxController.init (AtxInner.new miotCtrlCfg) (InitEnv.mk true true true)).1

/-- A status environment in which the smart plug reports the on value. -/
def wStatusEnv : StatusEnv :=
  { miot_get := Except.ok "LKRQ电脑开机卡 (2094828328) 的 on 值为 True\n"
    led_read := Except.ok PowerStatus.Unknown }

/-- An action environment built on `wStatusEnv` with successful effects. -/
def wActionEnv : ActionEnv :=
  { status := wStatusEnv
    set_outcome := Except.ok ()
    pulse_outcome := Except.ok () }

/-- Witness for C1: on the concrete Miot-driven state, whose sensed status
is On, `power_short` sends the force-off pair. -/
theorem C1_power_short_witness :
    miotReadyState.config.power.driver = AtxDriverType.Miot ∧
    AtxController.get_power_status_inner miotReadyState wActionEnv.status =
      PowerStatus.On ∧
    (AtxController.power_short miotReadyState wActionEnv).2 =
      [SetCmd.mk "2094828328" "on" "False"] := by
  have h := C1_power_short miotReadyState wActionEnv rfl
  exact ⟨rfl, by decide,
    (h.1 (MiotBackend.mk miotConnCfg true) (by decide)).1 (by decide)⟩

/-- Witness for C2: on the same concrete state, `power_long` sends the
force-off pair. -/
theorem C2_power_long_witness :
    (AtxController.power_long miotReadyState wActionEnv).2 =
      [SetCmd.mk "2094828328" "on" "False"] :=
  (C2_power_long miotReadyState wActionEnv (MiotBackend.mk miotConnCfg true)
    rfl (by decide)).1

/-- Witness for C4: the snapshot equations hold on the concrete reachable
state. -/
theorem C4_state_snapshot_witness :
    (AtxController.state miotReadyState wStatusEnv).available =
      miotReadyState.config.enabled ∧
    (AtxController.state miotReadyState wStatusEnv).power_status =
      AtxController.get_power_status_inner miotReadyState wStatusEnv := by
  have hr : Reachable miotReadyState :=
    Reachable.step_init (Reachable.construct miotCtrlCfg) (InitEnv.mk true true true)
  have h := C4_state_snapshot miotReadyState wStatusEnv hr
  exact ⟨h.1, h.2.2.2.1⟩

/-- Witness for C9: the concrete reachable state holds an initialized
backend handle. -/
theorem C9_reachable_miot_initialized_witness :
    miotReadyState.miot_backend = some (MiotBackend.mk miotConnCfg true) ∧
    (MiotBackend.mk miotConnCfg true).is_initialized = true := by
  have hr : Reachable miotReadyState :=
    Reachable.step_init (Reachable.construct miotCtrlCfg) (InitEnv.mk true true true)
  exact ⟨by decide, C9_reachable_miot_initialized miotReadyState hr
    (MiotBackend.mk miotConnCfg true) (by decide)⟩

/-- Witness for C10: a freshly constructed controller with a Miot power
driver is not power-ready. -/
theorem C10_miot_power_not_ready_witness :
    AtxController.is_power_ready (AtxInner.new miotCtrlCfg) = false :=
  C10_miot_power_not_ready (AtxInner.new miotCtrlCfg)
    (Reachable.construct miotCtrlCfg) rfl
